import Mathlib

/-!
Verification of the quadro2 flight-controller core against its
natural-language specification.

The development shallowly embeds the two core source files
(`src/sensing/sensors.c` and `src/remote/remote.h`) into Lean:

* machine integers become `Nat`/`Int` with explicit `% 2^w` where the C
  code relies on wrap-around (the `uint8_t` connection counter and
  message-length field);
* `float` arithmetic is modelled over `ℚ`; the claims settled here only
  exercise exact float operations (comparisons of integer-valued
  timestamps, multiplication by exactly representable `0`, `1`, `0.5`),
  so the rational model is faithful on every input a theorem touches;
* the `eekf` Kalman-filter library is an external dependency whose
  source is not part of the repository; its `predict` and
  `lazy_correct` entry points are modelled from the specification's
  formulas (section 4.1) and are marked `Modelled from the spec:` in
  their doc comments.  The per-axis transition and measurement
  callbacks, which do live in `sensors.c`, are translated from the
  source;
* compile-time tuning constants (`SENSORS_FUSE_*`, velocity limits,
  timeout values) come from headers outside the repository; they are
  kept as parameters of the embedding, so every theorem holds for all
  values of those constants.
-/

/-! ## Sensor data model (sensor_types.h / sensors.c) -/

/-- Measurement-event tags, in the declaration order used by the spec's
data model: ACCELERATION, ORIENTATION, ALTIMETER, ULTRASONIC, POSITION,
GROUNDSPEED. -/
inductive SensorType where
  | acceleration
  | orientation
  | altimeter
  | ultrasonic
  | position
  | groundspeed
deriving DecidableEq, Repr

/-- Column vector with the two axis states `[position, velocity]`
(`eekf_mat` of shape 2×1). -/
structure Vec2 where
  pos : ℚ
  vel : ℚ
deriving DecidableEq, Repr

/-- Dense 2×2 matrix (`eekf_mat` of shape 2×2), row major. -/
structure Mat2 where
  m00 : ℚ
  m01 : ℚ
  m10 : ℚ
  m11 : ℚ
deriving DecidableEq, Repr

/-- Measurement vector of the Z fuser: rows ultrasonic, altimeter,
gnss-altitude (`sensors.Z.z`, shape 3×1). -/
structure Vec3 where
  v0 : ℚ
  v1 : ℚ
  v2 : ℚ
deriving DecidableEq, Repr

/-- Dense 3×3 matrix (the Z fuser's `R` and the innovation covariance
`S`), row major. -/
structure Mat3 where
  m00 : ℚ
  m01 : ℚ
  m02 : ℚ
  m10 : ℚ
  m11 : ℚ
  m12 : ℚ
  m20 : ℚ
  m21 : ℚ
  m22 : ℚ
deriving DecidableEq, Repr

/-- Dense 3×2 matrix (the Z fuser's measurement Jacobian `Jh`). -/
structure Mat32 where
  a00 : ℚ
  a01 : ℚ
  a10 : ℚ
  a11 : ℚ
  a20 : ℚ
  a21 : ℚ
deriving DecidableEq, Repr

/-- Dense 2×3 matrix (`H`ᵀ-shaped scratch and the Kalman gain `K` of the
Z fuser). -/
structure Mat23 where
  a00 : ℚ
  a01 : ℚ
  a02 : ℚ
  a10 : ℚ
  a11 : ℚ
  a12 : ℚ
deriving DecidableEq, Repr

def Mat2.zero : Mat2 := ⟨0, 0, 0, 0⟩

def Mat2.id : Mat2 := ⟨1, 0, 0, 1⟩

def Mat3.zero : Mat3 := ⟨0, 0, 0, 0, 0, 0, 0, 0, 0⟩

/-- Matrix product of two 2×2 matrices (`eekf_mat_mul`). -/
def Mat2.mul (A B : Mat2) : Mat2 :=
  ⟨A.m00 * B.m00 + A.m01 * B.m10, A.m00 * B.m01 + A.m01 * B.m11,
   A.m10 * B.m00 + A.m11 * B.m10, A.m10 * B.m01 + A.m11 * B.m11⟩

/-- Sum of two 2×2 matrices (`eekf_mat_add`). -/
def Mat2.add (A B : Mat2) : Mat2 :=
  ⟨A.m00 + B.m00, A.m01 + B.m01, A.m10 + B.m10, A.m11 + B.m11⟩

/-- Difference of two 2×2 matrices (`eekf_mat_sub`). -/
def Mat2.sub (A B : Mat2) : Mat2 :=
  ⟨A.m00 - B.m00, A.m01 - B.m01, A.m10 - B.m10, A.m11 - B.m11⟩

/-- Transpose of a 2×2 matrix (`eekf_mat_transpose`). -/
def Mat2.transpose (A : Mat2) : Mat2 := ⟨A.m00, A.m10, A.m01, A.m11⟩

/-- Transpose of a 3×2 matrix, giving the 2×3 matrix `H`ᵀ. -/
def Mat32.transpose (H : Mat32) : Mat23 :=
  ⟨H.a00, H.a10, H.a20, H.a01, H.a11, H.a21⟩

/-- Product of a 2×2 matrix with a 2×3 matrix (`P · Hᵀ`). -/
def Mat2.mulMat23 (P : Mat2) (B : Mat23) : Mat23 :=
  ⟨P.m00 * B.a00 + P.m01 * B.a10, P.m00 * B.a01 + P.m01 * B.a11,
   P.m00 * B.a02 + P.m01 * B.a12,
   P.m10 * B.a00 + P.m11 * B.a10, P.m10 * B.a01 + P.m11 * B.a11,
   P.m10 * B.a02 + P.m11 * B.a12⟩

/-- Product of a 3×2 matrix with a 2×3 matrix (`H · (P · Hᵀ)`). -/
def Mat32.mulMat23 (H : Mat32) (B : Mat23) : Mat3 :=
  ⟨H.a00 * B.a00 + H.a01 * B.a10, H.a00 * B.a01 + H.a01 * B.a11,
   H.a00 * B.a02 + H.a01 * B.a12,
   H.a10 * B.a00 + H.a11 * B.a10, H.a10 * B.a01 + H.a11 * B.a11,
   H.a10 * B.a02 + H.a11 * B.a12,
   H.a20 * B.a00 + H.a21 * B.a10, H.a20 * B.a01 + H.a21 * B.a11,
   H.a20 * B.a02 + H.a21 * B.a12⟩

/-- Sum of two 3×3 matrices. -/
def Mat3.add (A B : Mat3) : Mat3 :=
  ⟨A.m00 + B.m00, A.m01 + B.m01, A.m02 + B.m02,
   A.m10 + B.m10, A.m11 + B.m11, A.m12 + B.m12,
   A.m20 + B.m20, A.m21 + B.m21, A.m22 + B.m22⟩

/-- Determinant of a 3×3 matrix. -/
def Mat3.det (A : Mat3) : ℚ :=
  A.m00 * (A.m11 * A.m22 - A.m12 * A.m21)
  - A.m01 * (A.m10 * A.m22 - A.m12 * A.m20)
  + A.m02 * (A.m10 * A.m21 - A.m11 * A.m20)

/-- Inverse of a 3×3 matrix via the adjugate; `none` when the matrix is
singular, in which case the modelled `eekf` call reports
`COMPUTATION_FAILED`. -/
def Mat3.inv (A : Mat3) : Option Mat3 :=
  let d := A.det
  if d = 0 then none
  else some
    ⟨(A.m11 * A.m22 - A.m12 * A.m21) / d, (A.m02 * A.m21 - A.m01 * A.m22) / d,
     (A.m01 * A.m12 - A.m02 * A.m11) / d,
     (A.m12 * A.m20 - A.m10 * A.m22) / d, (A.m00 * A.m22 - A.m02 * A.m20) / d,
     (A.m02 * A.m10 - A.m00 * A.m12) / d,
     (A.m10 * A.m21 - A.m11 * A.m20) / d, (A.m01 * A.m20 - A.m00 * A.m21) / d,
     (A.m00 * A.m11 - A.m01 * A.m10) / d⟩

/-- Product of a 2×3 matrix with a 3×3 matrix (`(P · Hᵀ) · S⁻¹`). -/
def Mat23.mulMat3 (B : Mat23) (S : Mat3) : Mat23 :=
  ⟨B.a00 * S.m00 + B.a01 * S.m10 + B.a02 * S.m20,
   B.a00 * S.m01 + B.a01 * S.m11 + B.a02 * S.m21,
   B.a00 * S.m02 + B.a01 * S.m12 + B.a02 * S.m22,
   B.a10 * S.m00 + B.a11 * S.m10 + B.a12 * S.m20,
   B.a10 * S.m01 + B.a11 * S.m11 + B.a12 * S.m21,
   B.a10 * S.m02 + B.a11 * S.m12 + B.a12 * S.m22⟩

/-- Product of a 2×3 matrix with a 3×1 vector (`K · y`). -/
def Mat23.mulVec3 (K : Mat23) (y : Vec3) : Vec2 :=
  ⟨K.a00 * y.v0 + K.a01 * y.v1 + K.a02 * y.v2,
   K.a10 * y.v0 + K.a11 * y.v1 + K.a12 * y.v2⟩

/-- Product of a 2×3 matrix with a 3×2 matrix (`K · H`). -/
def Mat23.mulMat32 (K : Mat23) (H : Mat32) : Mat2 :=
  ⟨K.a00 * H.a00 + K.a01 * H.a10 + K.a02 * H.a20,
   K.a00 * H.a01 + K.a01 * H.a11 + K.a02 * H.a21,
   K.a10 * H.a00 + K.a11 * H.a10 + K.a12 * H.a20,
   K.a10 * H.a01 + K.a11 * H.a11 + K.a12 * H.a21⟩

/-- Difference of two 3×1 vectors (innovation `y = z − ẑ`). -/
def Vec3.sub (a b : Vec3) : Vec3 := ⟨a.v0 - b.v0, a.v1 - b.v1, a.v2 - b.v2⟩

/-- Sum of two 2×1 vectors (`x + K·y`). -/
def Vec2.add (a b : Vec2) : Vec2 := ⟨a.pos + b.pos, a.vel + b.vel⟩

/-- Product of a 2×2 matrix with a 2×1 vector. -/
def Mat2.mulVec (A : Mat2) (v : Vec2) : Vec2 :=
  ⟨A.m00 * v.pos + A.m01 * v.vel, A.m10 * v.pos + A.m11 * v.vel⟩

/-! ## Axis fuser embedding (sensors.c)

Tuning constants live in a header outside the repository and are kept
as parameters. -/

/-- Tuning constants of the Z fuser (`SENSORS_FUSE_Z_*`). -/
structure ZConsts where
  errorAcceleration : ℚ
  errorUltrasonic : ℚ
  errorBarometer : ℚ
  errorGps : ℚ
  limitVel : ℚ
deriving DecidableEq, Repr

/-- Tuning constants of the Y fuser (`SENSORS_FUSE_Y_*`). -/
structure YConsts where
  errorAcceleration : ℚ
  errorGps : ℚ
  errorVelocity : ℚ
  limitVel : ℚ
deriving DecidableEq, Repr

/-- Tuning constants of the X fuser (`SENSORS_FUSE_X_*`). -/
structure XConsts where
  errorAcceleration : ℚ
  errorGps : ℚ
  limitVel : ℚ
deriving DecidableEq, Repr

/-- State owned by the Z fusion block of `struct sensors_t`: state
vector `x`, covariance `P`, measurement vector `z` (3 rows) and
`lastTimestamp` (int64 microseconds). -/
structure ZState where
  x : Vec2
  P : Mat2
  z : Vec3
  lastTimestamp : ℤ
deriving DecidableEq, Repr

/-- State owned by the Y fusion block of `struct sensors_t`; the
measurement vector has 2 rows (gnss position, gnss ground-speed). -/
structure YState where
  x : Vec2
  P : Mat2
  z0 : ℚ
  z1 : ℚ
  lastTimestamp : ℤ
deriving DecidableEq, Repr

/-- State owned by the X fusion block of `struct sensors_t`; the
measurement vector has a single row (gnss position). -/
structure XState where
  x : Vec2
  P : Mat2
  z0 : ℚ
  lastTimestamp : ℤ
deriving DecidableEq, Repr

/-- Translation of `sensors_fuseZ_reset`: zero the state, set the
covariance to the bootstrapping pattern (position uncertainty 0,
velocity uncertainty 1), clear the measurement vector.  The source does
not touch `lastTimestamp`. -/
def sensors_fuseZ_reset (s : ZState) : ZState :=
  { s with x := ⟨0, 0⟩, P := ⟨0, 0, 0, 1⟩, z := ⟨0, 0, 0⟩ }

/-- Translation of `sensors_fuseY_reset` (the source clears only row 0
of `sensors.Y.z`). -/
def sensors_fuseY_reset (s : YState) : YState :=
  { s with x := ⟨0, 0⟩, P := ⟨0, 0, 0, 1⟩, z0 := 0 }

/-- Translation of `sensors_fuseX_reset`. -/
def sensors_fuseX_reset (s : XState) : XState :=
  { s with x := ⟨0, 0⟩, P := ⟨0, 0, 0, 1⟩, z0 := 0 }

/-- Translation of `sensors_fuseZ_transition`: fills the Jacobian
`Jf = [[1, dt], [0, 1]]`, computes `xp = F·x` then `xp += G·u` with
`G = [0.5·dt², dt]ᵀ`, and clamps the predicted velocity to
`±SENSORS_FUSE_Z_LIMIT_VEL`.  The source's matrix calls cannot fail on
these fixed shapes, so the model is total. -/
def sensors_fuseZ_transition (c : ZConsts) (dt : ℚ) (x : Vec2) (u : ℚ) :
    Mat2 × Vec2 :=
  let Jf : Mat2 := ⟨1, dt, 0, 1⟩
  let xp := Jf.mulVec x
  let G : Vec2 := ⟨1/2 * dt * dt, dt⟩
  let xp := xp.add ⟨G.pos * u, G.vel * u⟩
  let v := xp.vel
  let v := if v > c.limitVel then c.limitVel
           else if v < -c.limitVel then -c.limitVel else v
  (Jf, ⟨xp.pos, v⟩)

/-- Translation of `sensors_fuseY_transition` (identical model with the
Y-axis velocity limit). -/
def sensors_fuseY_transition (c : YConsts) (dt : ℚ) (x : Vec2) (u : ℚ) :
    Mat2 × Vec2 :=
  let Jf : Mat2 := ⟨1, dt, 0, 1⟩
  let xp := Jf.mulVec x
  let G : Vec2 := ⟨1/2 * dt * dt, dt⟩
  let xp := xp.add ⟨G.pos * u, G.vel * u⟩
  let v := xp.vel
  let v := if v > c.limitVel then c.limitVel
           else if v < -c.limitVel then -c.limitVel else v
  (Jf, ⟨xp.pos, v⟩)

/-- Translation of `sensors_fuseX_transition` (identical model with the
X-axis velocity limit). -/
def sensors_fuseX_transition (c : XConsts) (dt : ℚ) (x : Vec2) (u : ℚ) :
    Mat2 × Vec2 :=
  let Jf : Mat2 := ⟨1, dt, 0, 1⟩
  let xp := Jf.mulVec x
  let G : Vec2 := ⟨1/2 * dt * dt, dt⟩
  let xp := xp.add ⟨G.pos * u, G.vel * u⟩
  let v := xp.vel
  let v := if v > c.limitVel then c.limitVel
           else if v < -c.limitVel then -c.limitVel else v
  (Jf, ⟨xp.pos, v⟩)

/-- Process-noise matrix built inside the predict branch of each fuser:
`q = |u| + ERROR_ACCELERATION`, `Q = q·[[dt⁴/4, dt³/2], [dt³/2, dt²]]`.
The first argument is the noise floor, the second the raw axial
acceleration `u`. -/
def sensors_fuse_Q (errorAcceleration u dt : ℚ) : Mat2 :=
  let q := |u| + errorAcceleration
  ⟨1/4 * q * dt ^ 4, 1/2 * q * dt ^ 3, 1/2 * q * dt ^ 3, q * dt * dt⟩

/-- Modelled from the spec: `eekf_predict` of the external `eekf`
library (not part of the repository).  Per section 4.1 it computes
`x' = f(x, u)` through the transition callback, which also fills the
Jacobian `F`, then `P' = F·P·Fᵀ + Q`.  The callback result is passed in
as the pair `(F, xp)`. -/
def eekf_predict_step (F : Mat2) (xp : Vec2) (P Q : Mat2) : Vec2 × Mat2 :=
  (xp, ((F.mul P).mul F.transpose).add Q)

/-- Translation of `sensors_fuseZ_measurement`: zeroes the 3×2 Jacobian
`Jh`, writes `1.0` into the row selected by the sensor type, and
returns `zp = H·x`; unknown types yield `PARAMETER_ERROR` (`none`). -/
def sensors_fuseZ_measurement (type : SensorType) (x : Vec2) :
    Option (Mat32 × Vec3) :=
  let H : Option Mat32 :=
    match type with
    | .ultrasonic => some ⟨1, 0, 0, 0, 0, 0⟩
    | .altimeter => some ⟨0, 0, 1, 0, 0, 0⟩
    | .position => some ⟨0, 0, 0, 0, 1, 0⟩
    | _ => none
  match H with
  | none => none
  | some H =>
    some (H, ⟨H.a00 * x.pos + H.a01 * x.vel,
              H.a10 * x.pos + H.a11 * x.vel,
              H.a20 * x.pos + H.a21 * x.vel⟩)

/-- Modelled from the spec: `eekf_lazy_correct` of the external `eekf`
library (not part of the repository).  Per section 4.1 it computes
`ẑ = h(x)` and `H` via the measurement callback, the innovation
`y = z − ẑ`, `S = H·P·Hᵀ + R`, `K = P·Hᵀ·S⁻¹`, `x ← x + K·y` and
`P ← (I − K·H)·P`.  A parameter error from the callback or a singular
`S` yields `none`, on which the caller logs and leaves `x`, `P`
untouched. -/
def eekf_lazy_correct_Z (type : SensorType) (x : Vec2) (P : Mat2)
    (z : Vec3) (R : Mat3) : Option (Vec2 × Mat2) :=
  match sensors_fuseZ_measurement type x with
  | none => none
  | some (H, zp) =>
    let y := z.sub zp
    let PHt := P.mulMat23 H.transpose
    let S := (H.mulMat23 PHt).add R
    match S.inv with
    | none => none
    | some Sinv =>
      let K := PHt.mulMat3 Sinv
      some (x.add (K.mulVec3 y), ((Mat2.id).sub (K.mulMat32 H)).mul P)

/-- Observable outcome of one `sensors_fuseZ` call: the updated fusion
state, whether `eekf_predict` was invoked, whether `eekf_lazy_correct`
was invoked, whether a late ACCELERATION event was dropped, and the
local measurement-noise matrix `R` as it stood when the function
returned (zero-initialised in the source). -/
structure FuseZResult where
  state : ZState
  didPredict : Bool
  didCorrect : Bool
  dropped : Bool
  R : Mat3
deriving DecidableEq, Repr

/-- Translation of `sensors_fuseZ`.  ACCELERATION events predict
(dropping timestamp regressions); other types enter the correction
`switch`.  The POSITION case writes row 2 of `z` and `R[2][2]` but has
no `break`, so it falls through to `default: return` without invoking
`eekf_lazy_correct`; ULTRASONIC and ALTIMETER `break` and reach the
correction call. -/
def sensors_fuseZ (c : ZConsts) (type : SensorType) (z : ℚ)
    (timestamp : ℤ) (s : ZState) : FuseZResult :=
  if type = SensorType.acceleration then
    if timestamp < s.lastTimestamp then
      ⟨s, false, false, true, Mat3.zero⟩
    else
      let dt : ℚ := ((timestamp - s.lastTimestamp : ℤ) : ℚ) / 1000 / 1000
      let Q := sensors_fuse_Q c.errorAcceleration z dt
      let Fxp := sensors_fuseZ_transition c dt s.x z
      let xP := eekf_predict_step Fxp.1 Fxp.2 s.P Q
      ⟨⟨xP.1, xP.2, s.z, timestamp⟩, true, false, false, Mat3.zero⟩
  else
    match type with
    | .ultrasonic =>
      let z' : Vec3 := ⟨z, s.z.v1, s.z.v2⟩
      let R : Mat3 := ⟨c.errorUltrasonic, 0, 0, 0, 0, 0, 0, 0, 0⟩
      let xP := (eekf_lazy_correct_Z .ultrasonic s.x s.P z' R).getD (s.x, s.P)
      ⟨⟨xP.1, xP.2, z', s.lastTimestamp⟩, false, true, false, R⟩
    | .altimeter =>
      let z' : Vec3 := ⟨s.z.v0, z, s.z.v2⟩
      let R : Mat3 := ⟨0, 0, 0, 0, c.errorBarometer, 0, 0, 0, 0⟩
      let xP := (eekf_lazy_correct_Z .altimeter s.x s.P z' R).getD (s.x, s.P)
      ⟨⟨xP.1, xP.2, z', s.lastTimestamp⟩, false, true, false, R⟩
    | .position =>
      let z' : Vec3 := ⟨s.z.v0, s.z.v1, z⟩
      let R : Mat3 := ⟨0, 0, 0, 0, 0, 0, 0, 0, c.errorGps⟩
      ⟨⟨s.x, s.P, z', s.lastTimestamp⟩, false, false, false, R⟩
    | _ => ⟨s, false, false, false, Mat3.zero⟩

/-- Observable outcome of one `sensors_fuseY` call; `R` is the local
2×2 measurement-noise matrix when the function returned. -/
structure FuseYResult where
  state : YState
  didPredict : Bool
  didCorrect : Bool
  dropped : Bool
  R : Mat2
deriving DecidableEq, Repr

/-- Translation of `sensors_fuseY`.  Neither correction case has a
`break`: POSITION writes row 0 of `z` and `R[0][0]`, falls through into
GROUNDSPEED writing row 1 and `R[1][1]`, and then into
`default: return`; GROUNDSPEED writes row 1 and falls into
`default: return`.  `eekf_lazy_correct` is therefore unreachable in
this function. -/
def sensors_fuseY (c : YConsts) (type : SensorType) (y : ℚ)
    (timestamp : ℤ) (s : YState) : FuseYResult :=
  if type = SensorType.acceleration then
    if timestamp < s.lastTimestamp then
      ⟨s, false, false, true, Mat2.zero⟩
    else
      let dt : ℚ := ((timestamp - s.lastTimestamp : ℤ) : ℚ) / 1000 / 1000
      let Q := sensors_fuse_Q c.errorAcceleration y dt
      let Fxp := sensors_fuseY_transition c dt s.x y
      let xP := eekf_predict_step Fxp.1 Fxp.2 s.P Q
      ⟨⟨xP.1, xP.2, s.z0, s.z1, timestamp⟩, true, false, false, Mat2.zero⟩
  else
    match type with
    | .position =>
      ⟨⟨s.x, s.P, y, y, s.lastTimestamp⟩, false, false, false,
       ⟨c.errorGps, 0, 0, c.errorVelocity⟩⟩
    | .groundspeed =>
      ⟨⟨s.x, s.P, s.z0, y, s.lastTimestamp⟩, false, false, false,
       ⟨0, 0, 0, c.errorVelocity⟩⟩
    | _ => ⟨s, false, false, false, Mat2.zero⟩

/-- Observable outcome of one `sensors_fuseX` call; `R` is the local
1×1 measurement-noise matrix when the function returned. -/
structure FuseXResult where
  state : XState
  didPredict : Bool
  didCorrect : Bool
  dropped : Bool
  R : ℚ
deriving DecidableEq, Repr

/-- Translation of `sensors_fuseX`.  The POSITION correction case has
no `break` and falls through (past the commented-out GROUNDSPEED case)
into `default: return`, so `eekf_lazy_correct` is unreachable in this
function as well. -/
def sensors_fuseX (c : XConsts) (type : SensorType) (xm : ℚ)
    (timestamp : ℤ) (s : XState) : FuseXResult :=
  if type = SensorType.acceleration then
    if timestamp < s.lastTimestamp then
      ⟨s, false, false, true, 0⟩
    else
      let dt : ℚ := ((timestamp - s.lastTimestamp : ℤ) : ℚ) / 1000 / 1000
      let Q := sensors_fuse_Q c.errorAcceleration xm dt
      let Fxp := sensors_fuseX_transition c dt s.x xm
      let xP := eekf_predict_step Fxp.1 Fxp.2 s.P Q
      ⟨⟨xP.1, xP.2, s.z0, timestamp⟩, true, false, false, 0⟩
  else
    match type with
    | .position =>
      ⟨⟨s.x, s.P, xm, s.lastTimestamp⟩, false, false, false, c.errorGps⟩
    | _ => ⟨s, false, false, false, 0⟩

/-! ## Sensor supervisor task (sensors_task in sensors.c) -/

/-- Axis fusers that `sensors_task` could dispatch to. -/
inductive AxisId where
  | axisX
  | axisY
  | axisZ
deriving DecidableEq, Repr

/-- Measurement event dequeued by `sensors_task`
(`struct sensors_input_t`): tag, timestamp (int64 microseconds),
accuracy and the payload union flattened into vector components and a
scalar distance. -/
structure SensorsInput where
  type : SensorType
  timestamp : ℤ
  accuracy : ℚ
  vx : ℚ
  vy : ℚ
  vz : ℚ
  distance : ℚ
deriving DecidableEq, Repr

/-- Process-wide state of `struct sensors_t`: per-sensor last-seen
timestamps and the three axis fusion blocks. -/
structure SensorsState where
  timeouts : SensorType → ℤ
  Z : ZState
  Y : YState
  X : XState

/-- Fuser invocations performed by the `switch` in `sensors_task` for
one dequeued event.  In the source every `sensors_fuseX`,
`sensors_fuseY` and `sensors_fuseZ` call is commented out
(sensors.c lines 187–217), so each case only logs and falls to
`break`. -/
def sensors_task_fuserCalls (type : SensorType) : List AxisId :=
  match type with
  | .acceleration => []   -- fuse calls commented out; ESP_LOGI only
  | .orientation => []    -- log commented out as well
  | .altimeter => []      -- sensors_fuseZ call commented out
  | .ultrasonic => []     -- sensors_fuseZ call commented out
  | .position => []       -- fuse calls commented out; ESP_LOGI only
  | .groundspeed => []    -- fuse calls commented out; ESP_LOGI only

/-- Translation of one loop iteration of `sensors_task` after a
successful `xQueueReceive`: run the `switch` (which performs no fuser
call, see `sensors_task_fuserCalls`), flush the queue when at most one
slot remains, record `timeouts[type] = timestamp`, and emit a timeout
warning for every non-GNSS sensor whose last-seen timestamp is older
than `timestamp − SENSORS_TIMEOUT_MS·1000`.  `spaces` is the value of
`uxQueueSpacesAvailable` and `timeoutMs` the constant
`SENSORS_TIMEOUT_MS` (defined outside the repository).  The returned
triple is (new state, fuser invocations, queue flushed?, timed-out
sensors). -/
def sensors_task_step (timeoutMs : ℤ) (input : SensorsInput)
    (s : SensorsState) (spaces : ℕ) :
    SensorsState × List AxisId × Bool × List SensorType :=
  let calls := sensors_task_fuserCalls input.type
  let queueReset := spaces ≤ 1
  let timeouts' := fun t => if t = input.type then input.timestamp else s.timeouts t
  let s' := { s with timeouts := timeouts' }
  let threshold := input.timestamp - timeoutMs * 1000
  let warned := [SensorType.acceleration, .orientation, .altimeter,
                 .ultrasonic].filter (fun t => timeouts' t < threshold)
  (s', calls, queueReset, warned)

/-! ## Remote telemetry embedding (remote.h) -/

/-- Observable effects of the remote task and its helpers.  The
constructors cover every side effect the source performs plus the two
effects the specification expects (`forwardControl`, `emergencyStop`)
which the source never emits. -/
inductive RemoteAction where
  | broadcast (payload : List ℕ)        -- cgiWebsockBroadcast on /ws
  | unicast (ws : ℕ) (payload : List ℕ) -- cgiWebsocketSend to one socket
  | printConsole (s : String)           -- printf to the serial console
  | forwardControl (cmd : List ℕ)       -- hand a control command to flight control
  | emergencyStop                       -- fatal emergency-stop signal
  | freeBuffer                          -- free(input.message.data)
deriving DecidableEq, Repr

/-- Translation of `struct remote_input_message_t`: owned byte buffer,
8-bit length field, optional socket handle (none ⇒ broadcast) and an
int64 timestamp. -/
structure RemoteMessage where
  data : List ℕ
  length : ℕ
  ws : Option ℕ
  timestamp : ℤ
deriving DecidableEq, Repr

/-- Translation of `struct remote_input_t` (the `union` holds a message
only for the two message-bearing variants). -/
inductive RemoteInput where
  | connected
  | disconnected
  | messageReceive (m : RemoteMessage)
  | messageSend (m : RemoteMessage)
deriving DecidableEq, Repr

/-- Mutable state of the remote task: the 8-bit connection counter of
`struct remote_t` (kept in `[0, 256)`), and the task-local
`timeoutPending` flag and `lastContact` timestamp of `remote_task`. -/
structure RemoteState where
  connected : ℕ
  timeoutPending : Bool
  lastContact : ℤ
deriving DecidableEq, Repr

/-- Translation of `remote_processMessage`: frames shorter than 2 bytes
are ignored; the `switch` on the first byte performs no observable
action in this revision — the `s` case only checks for `'1'` (fault
handling is a ToDo), the `c` case body is the comment
`ToDo -> Weiterleiten an control`, and `r`/default fall to `break`. -/
def remote_processMessage (m : RemoteMessage) : List RemoteAction :=
  if m.length < 2 then []
  else
    match m.data.head? with
    | some 115 => []  -- 's': second byte checked against '1'; both paths return no action
    | some 99 => []   -- 'c': forwarding to the control task is an unimplemented ToDo
    | some 114 => []  -- 'r': reports are not expected inbound
    | _ => []         -- default: break

/-- Translation of `remote_sendMessage`: when the connection counter is
non-zero, unicast to the stored socket handle or broadcast when the
handle is absent; the payload is the first `length` bytes of the
buffer.  With no connections nothing is sent. -/
def remote_sendMessage (s : RemoteState) (m : RemoteMessage) :
    List RemoteAction :=
  if s.connected ≠ 0 then
    match m.ws with
    | some w => [RemoteAction.unicast w (m.data.take m.length)]
    | none => [RemoteAction.broadcast (m.data.take m.length)]
  else []

/-- Translation of the event `switch` of `remote_task`: CONNECTED and
DISCONNECTED adjust the 8-bit counter with `uint8_t` wrap-around and no
bounds guard; MESSAGE_RECEIVE parses, frees the buffer, records
`lastContact` from the event timestamp and clears `timeoutPending`;
MESSAGE_SEND dispatches and frees the buffer. -/
def remote_task_handleEvent (input : RemoteInput) (s : RemoteState) :
    RemoteState × List RemoteAction :=
  match input with
  | .connected =>
    ({ s with connected := (s.connected + 1) % 256 }, [])
  | .disconnected =>
    ({ s with connected := (s.connected + 255) % 256 }, [])
  | .messageReceive m =>
    ({ s with lastContact := m.timestamp, timeoutPending := false },
     remote_processMessage m ++ [RemoteAction.freeBuffer])
  | .messageSend m =>
    (s, remote_sendMessage s m ++ [RemoteAction.freeBuffer])

/-- Translation of the timeout check at the bottom of every
`remote_task` loop iteration: with at least one connection and more
than 500 ms (500000 µs) since `lastContact`, either report the elapsed
heartbeat — the source only does `printf("remote timeout\n")` under a
`ToDo Event propagieren` marker and clears the flag — or broadcast the
ping `"s?"` (bytes 115, 63), set `timeoutPending` and reset
`lastContact` to `now`. -/
def remote_task_heartbeat (s : RemoteState) (now : ℤ) :
    RemoteState × List RemoteAction :=
  if s.connected ≠ 0 ∧ now - s.lastContact > 500000 then
    if s.timeoutPending then
      ({ s with timeoutPending := false },
       [RemoteAction.printConsole "remote timeout"])
    else
      ({ s with timeoutPending := true, lastContact := now },
       [RemoteAction.broadcast [115, 63]])
  else (s, [])

/-- Translation of one full wake of `remote_task`: handle the dequeued
event when the receive succeeded, then always run the timeout check. -/
def remote_task_wake (input : Option RemoteInput) (s : RemoteState)
    (now : ℤ) : RemoteState × List RemoteAction :=
  let (s1, acts1) :=
    match input with
    | some e => remote_task_handleEvent e s
    | none => (s, [])
  let (s2, acts2) := remote_task_heartbeat s1 now
  (s2, acts1 ++ acts2)

/-- Translation of `remote_wsReceive`: allocate `len` bytes, copy the
whole frame, store the length into the 8-bit `length` field (hence
modulo 256), record the socket handle and the current time, and build a
MESSAGE_RECEIVE event.  `data` stands for the `len`-byte inbound frame,
so the C `len` parameter is `data.length`. -/
def remote_wsReceive (ws : ℕ) (data : List ℕ) (now : ℤ) : RemoteInput :=
  RemoteInput.messageReceive ⟨data, data.length % 256, some ws, now⟩

/-! ## Embedded-asset streamer (remote_sendEmbedded in remote.h) -/

/-- Return status of a CGI handler call (`CgiStatus` of libesphttpd,
restricted to the values the handler produces). -/
inductive CgiStatus where
  | notfound
  | more
  | done
deriving DecidableEq, Repr

/-- Translation of one `remote_sendEmbedded` call.  `asset` is the byte
region from `cgiArg` (the start pointer) up to `cgiArg2` exclusive, so
`asset.length` equals `cgiArg2 − cgiArg` and the source's
`fileEnd = cgiArg2 − 1` drops the trailing null terminator:
`fileLength = asset.length − 1`.  `sent` is the `sentLength` counter
carried in `cgiData` (0 on the first call).  The null-pointer checks on
`fileStart`/`fileEnd` concern the address values and are outside the
byte-level model; the pointer-order check `fileEnd <= fileStart`
becomes `asset.length − 1 ≤ 0`.  Returns the status, the chunk handed
to `httpdSend` and the updated counter. -/
def remote_sendEmbedded (asset : List ℕ) (sent : ℕ) :
    CgiStatus × List ℕ × ℕ :=
  let fileLength := asset.length - 1
  if asset.length - 1 = 0 then (.notfound, [], sent)
  else
    let remainingLength := fileLength - sent
    if remainingLength ≤ 1024 then
      (.done, (asset.dropLast.drop sent).take remainingLength, sent + remainingLength)
    else
      (.more, (asset.dropLast.drop sent).take 1024, sent + 1024)

/-- Bytes emitted by re-entering `remote_sendEmbedded` until it stops
returning MORE, starting from counter `sent`; `fuel` bounds the number
of calls (the HTTP engine re-enters until DONE).  The second component
is the status of the final call, `none` when the fuel ran out first. -/
def remote_sendEmbedded_run (asset : List ℕ) :
    ℕ → ℕ → List ℕ × Option CgiStatus
  | _, 0 => ([], none)
  | sent, fuel + 1 =>
    match remote_sendEmbedded asset sent with
    | (.done, chunk, _) => (chunk, some .done)
    | (.notfound, _, _) => ([], some .notfound)
    | (.more, chunk, sent') =>
      let rest := remote_sendEmbedded_run asset sent' fuel
      (chunk ++ rest.1, rest.2)

/-! ## Log redirector (remote_printLog in remote.h) -/

/-- Observable outcome of one `remote_printLog` call.  `sinkArgs`
records the format string and argument list passed to the captured
previous sink `remote.defaultLog`; `enqueuedBroadcast` tells whether a
MESSAGE_SEND event entered the queue; `bufferReleases` counts the
`free` calls over the allocated buffer's whole lifetime, including the
consumer's `free` in `remote_task` after a successful enqueue. -/
structure PrintLogResult (α : Type) where
  sinkArgs : α
  enqueuedBroadcast : Bool
  bufferReleases : ℕ
deriving DecidableEq, Repr

/-- Translation of `remote_printLog`.  Formatting itself is opaque in
the model: `fmtArgs` stands for the pair (format string, `va_list`) and
`n` for the return value of `vsnprintf(string + 1, 127, format,
arguments)`, so the source's `length` is `n + 1`.  On
`length <= 0 || length > 128` the buffer is freed and only the previous
sink runs.  Otherwise a broadcast MESSAGE_SEND is enqueued with
`xQueueSend(..., 0)` whose result the source ignores: when the queue
has space the buffer's ownership moves to the queue and the consumer
frees it after dispatch (one release); when the queue is full the event
is dropped and no `free` of the buffer ever happens.  Both exits call
`remote.defaultLog(format, arguments)` unchanged. -/
def remote_printLog {α : Type} (fmtArgs : α) (n : ℤ)
    (queueHasSpace : Bool) : PrintLogResult α :=
  let length := n + 1
  if length ≤ 0 ∨ length > 128 then
    { sinkArgs := fmtArgs, enqueuedBroadcast := false, bufferReleases := 1 }
  else if queueHasSpace then
    { sinkArgs := fmtArgs, enqueuedBroadcast := true, bufferReleases := 1 }
  else
    { sinkArgs := fmtArgs, enqueuedBroadcast := false, bufferReleases := 0 }

/-! ## Helper lemmas about the fusers -/

/-- Late ACCELERATION events leave the Z fusion state untouched. -/
theorem sensors_fuseZ_accel_late (c : ZConsts) (u : ℚ) (t : ℤ) (s : ZState)
    (h : t < s.lastTimestamp) :
    sensors_fuseZ c .acceleration u t s = ⟨s, false, false, true, Mat3.zero⟩ := by
  simp [sensors_fuseZ, h]

/-- Late ACCELERATION events leave the Y fusion state untouched. -/
theorem sensors_fuseY_accel_late (c : YConsts) (u : ℚ) (t : ℤ) (s : YState)
    (h : t < s.lastTimestamp) :
    sensors_fuseY c .acceleration u t s = ⟨s, false, false, true, Mat2.zero⟩ := by
  simp [sensors_fuseY, h]

/-- Late ACCELERATION events leave the X fusion state untouched. -/
theorem sensors_fuseX_accel_late (c : XConsts) (u : ℚ) (t : ℤ) (s : XState)
    (h : t < s.lastTimestamp) :
    sensors_fuseX c .acceleration u t s = ⟨s, false, false, true, 0⟩ := by
  simp [sensors_fuseX, h]

/-- Recorded prediction timestamp of the Z fuser after an ACCELERATION
event: kept on a drop, the event timestamp otherwise. -/
theorem sensors_fuseZ_accel_ts (c : ZConsts) (u : ℚ) (t : ℤ) (s : ZState) :
    (sensors_fuseZ c .acceleration u t s).state.lastTimestamp
      = if t < s.lastTimestamp then s.lastTimestamp else t := by
  by_cases h : t < s.lastTimestamp <;> simp [sensors_fuseZ, h]

/-- Recorded prediction timestamp of the Y fuser after an ACCELERATION
event. -/
theorem sensors_fuseY_accel_ts (c : YConsts) (u : ℚ) (t : ℤ) (s : YState) :
    (sensors_fuseY c .acceleration u t s).state.lastTimestamp
      = if t < s.lastTimestamp then s.lastTimestamp else t := by
  by_cases h : t < s.lastTimestamp <;> simp [sensors_fuseY, h]

/-- Recorded prediction timestamp of the X fuser after an ACCELERATION
event. -/
theorem sensors_fuseX_accel_ts (c : XConsts) (u : ℚ) (t : ℤ) (s : XState) :
    (sensors_fuseX c .acceleration u t s).state.lastTimestamp
      = if t < s.lastTimestamp then s.lastTimestamp else t := by
  by_cases h : t < s.lastTimestamp <;> simp [sensors_fuseX, h]

/-- Process noise vanishes over a zero time step. -/
theorem sensors_fuse_Q_dt0 (e u : ℚ) : sensors_fuse_Q e u 0 = Mat2.zero := by
  simp [sensors_fuse_Q, Mat2.zero]

/-- Covariance propagation through the identity Jacobian with zero
process noise is the identity. -/
theorem eekf_predict_step_id (x : Vec2) (P : Mat2) :
    eekf_predict_step ⟨1, 0, 0, 1⟩ x P Mat2.zero = (x, P) := by
  simp [eekf_predict_step, Mat2.mul, Mat2.transpose, Mat2.add, Mat2.zero]

/-- Z-axis transition over a zero time step: identity Jacobian, state
unchanged (the velocity clamp is inactive when the prior velocity obeys
the limit). -/
theorem sensors_fuseZ_transition_dt0 (c : ZConsts) (x : Vec2) (u : ℚ)
    (h : |x.vel| ≤ c.limitVel) :
    sensors_fuseZ_transition c 0 x u = (⟨1, 0, 0, 1⟩, x) := by
  obtain ⟨hge, hle⟩ := abs_le.mp h
  simp [sensors_fuseZ_transition, Mat2.mulVec, Vec2.add,
        not_lt.mpr hle, not_lt.mpr hge]

/-- Y-axis transition over a zero time step. -/
theorem sensors_fuseY_transition_dt0 (c : YConsts) (x : Vec2) (u : ℚ)
    (h : |x.vel| ≤ c.limitVel) :
    sensors_fuseY_transition c 0 x u = (⟨1, 0, 0, 1⟩, x) := by
  obtain ⟨hge, hle⟩ := abs_le.mp h
  simp [sensors_fuseY_transition, Mat2.mulVec, Vec2.add,
        not_lt.mpr hle, not_lt.mpr hge]

/-- X-axis transition over a zero time step. -/
theorem sensors_fuseX_transition_dt0 (c : XConsts) (x : Vec2) (u : ℚ)
    (h : |x.vel| ≤ c.limitVel) :
    sensors_fuseX_transition c 0 x u = (⟨1, 0, 0, 1⟩, x) := by
  obtain ⟨hge, hle⟩ := abs_le.mp h
  simp [sensors_fuseX_transition, Mat2.mulVec, Vec2.add,
        not_lt.mpr hle, not_lt.mpr hge]

/-- ACCELERATION at exactly the recorded timestamp runs a prediction
whose transition is the identity: the Z fusion state is reproduced. -/
theorem sensors_fuseZ_accel_equal_ts (c : ZConsts) (s : ZState) (u : ℚ)
    (h : |s.x.vel| ≤ c.limitVel) :
    sensors_fuseZ c .acceleration u s.lastTimestamp s
      = ⟨s, true, false, false, Mat3.zero⟩ := by
  have hd : ¬ (s.lastTimestamp < s.lastTimestamp) := lt_irrefl _
  have hdt : ((s.lastTimestamp - s.lastTimestamp : ℤ) : ℚ) / 1000 / 1000 = 0 := by
    simp
  simp only [sensors_fuseZ, if_pos rfl, if_neg hd, hdt, sensors_fuse_Q_dt0,
    sensors_fuseZ_transition_dt0 c s.x u h, eekf_predict_step_id]
  rfl

/-- ACCELERATION at exactly the recorded timestamp reproduces the Y
fusion state. -/
theorem sensors_fuseY_accel_equal_ts (c : YConsts) (s : YState) (u : ℚ)
    (h : |s.x.vel| ≤ c.limitVel) :
    sensors_fuseY c .acceleration u s.lastTimestamp s
      = ⟨s, true, false, false, Mat2.zero⟩ := by
  have hd : ¬ (s.lastTimestamp < s.lastTimestamp) := lt_irrefl _
  have hdt : ((s.lastTimestamp - s.lastTimestamp : ℤ) : ℚ) / 1000 / 1000 = 0 := by
    simp
  simp only [sensors_fuseY, if_pos rfl, if_neg hd, hdt, sensors_fuse_Q_dt0,
    sensors_fuseY_transition_dt0 c s.x u h, eekf_predict_step_id]
  rfl

/-- ACCELERATION at exactly the recorded timestamp reproduces the X
fusion state. -/
theorem sensors_fuseX_accel_equal_ts (c : XConsts) (s : XState) (u : ℚ)
    (h : |s.x.vel| ≤ c.limitVel) :
    sensors_fuseX c .acceleration u s.lastTimestamp s
      = ⟨s, true, false, false, 0⟩ := by
  have hd : ¬ (s.lastTimestamp < s.lastTimestamp) := lt_irrefl _
  have hdt : ((s.lastTimestamp - s.lastTimestamp : ℤ) : ℚ) / 1000 / 1000 = 0 := by
    simp
  simp only [sensors_fuseX, if_pos rfl, if_neg hd, hdt, sensors_fuse_Q_dt0,
    sensors_fuseX_transition_dt0 c s.x u h, eekf_predict_step_id]
  rfl

/-- C7: for every axis fuser the recorded `lastTimestamp` is
non-decreasing — an ACCELERATION event with a timestamp strictly below
`lastTimestamp` is dropped without changing any filter state, an
accepted prediction sets `lastTimestamp` to its event timestamp, and
injecting ACCELERATION events at timestamps 1000, 3000, 2000, 4000 µs
yields the `lastTimestamp` trajectory 1000, 3000, 3000, 4000. -/
theorem C7_ekf_monotone_time :
    (∀ (c : ZConsts) (u : ℚ) (t : ℤ) (s : ZState), t < s.lastTimestamp →
      sensors_fuseZ c .acceleration u t s = ⟨s, false, false, true, Mat3.zero⟩) ∧
    (∀ (c : ZConsts) (u : ℚ) (t : ℤ) (s : ZState),
      s.lastTimestamp ≤ (sensors_fuseZ c .acceleration u t s).state.lastTimestamp) ∧
    (∀ (c : ZConsts) (u : ℚ) (t : ℤ) (s : ZState), s.lastTimestamp ≤ t →
      (sensors_fuseZ c .acceleration u t s).state.lastTimestamp = t) ∧
    (∀ (c : YConsts) (u : ℚ) (t : ℤ) (s : YState), t < s.lastTimestamp →
      sensors_fuseY c .acceleration u t s = ⟨s, false, false, true, Mat2.zero⟩) ∧
    (∀ (c : YConsts) (u : ℚ) (t : ℤ) (s : YState),
      s.lastTimestamp ≤ (sensors_fuseY c .acceleration u t s).state.lastTimestamp) ∧
    (∀ (c : YConsts) (u : ℚ) (t : ℤ) (s : YState), s.lastTimestamp ≤ t →
      (sensors_fuseY c .acceleration u t s).state.lastTimestamp = t) ∧
    (∀ (c : XConsts) (u : ℚ) (t : ℤ) (s : XState), t < s.lastTimestamp →
      sensors_fuseX c .acceleration u t s = ⟨s, false, false, true, 0⟩) ∧
    (∀ (c : XConsts) (u : ℚ) (t : ℤ) (s : XState),
      s.lastTimestamp ≤ (sensors_fuseX c .acceleration u t s).state.lastTimestamp) ∧
    (∀ (c : XConsts) (u : ℚ) (t : ℤ) (s : XState), s.lastTimestamp ≤ t →
      (sensors_fuseX c .acceleration u t s).state.lastTimestamp = t) ∧
    (∀ (c : ZConsts) (u1 u2 u3 u4 : ℚ) (s0 : ZState), s0.lastTimestamp = 0 →
      (sensors_fuseZ c .acceleration u1 1000 s0).state.lastTimestamp = 1000 ∧
      (sensors_fuseZ c .acceleration u2 3000
        (sensors_fuseZ c .acceleration u1 1000 s0).state).state.lastTimestamp = 3000 ∧
      (sensors_fuseZ c .acceleration u3 2000
        (sensors_fuseZ c .acceleration u2 3000
          (sensors_fuseZ c .acceleration u1 1000 s0).state).state).state.lastTimestamp = 3000 ∧
      (sensors_fuseZ c .acceleration u4 4000
        (sensors_fuseZ c .acceleration u3 2000
          (sensors_fuseZ c .acceleration u2 3000
            (sensors_fuseZ c .acceleration u1 1000 s0).state).state).state).state.lastTimestamp
        = 4000) ∧
    (∀ (c : XConsts) (u1 u2 u3 u4 : ℚ) (s0 : XState), s0.lastTimestamp = 0 →
      (sensors_fuseX c .acceleration u1 1000 s0).state.lastTimestamp = 1000 ∧
      (sensors_fuseX c .acceleration u2 3000
        (sensors_fuseX c .acceleration u1 1000 s0).state).state.lastTimestamp = 3000 ∧
      (sensors_fuseX c .acceleration u3 2000
        (sensors_fuseX c .acceleration u2 3000
          (sensors_fuseX c .acceleration u1 1000 s0).state).state).state.lastTimestamp = 3000 ∧
      (sensors_fuseX c .acceleration u4 4000
        (sensors_fuseX c .acceleration u3 2000
          (sensors_fuseX c .acceleration u2 3000
            (sensors_fuseX c .acceleration u1 1000 s0).state).state).state).state.lastTimestamp
        = 4000) := by
  refine ⟨sensors_fuseZ_accel_late, ?_, ?_, sensors_fuseY_accel_late, ?_, ?_,
          sensors_fuseX_accel_late, ?_, ?_, ?_, ?_⟩
  · intro c u t s
    rw [sensors_fuseZ_accel_ts]
    split <;> omega
  · intro c u t s h
    rw [sensors_fuseZ_accel_ts, if_neg (not_lt.mpr h)]
  · intro c u t s
    rw [sensors_fuseY_accel_ts]
    split <;> omega
  · intro c u t s h
    rw [sensors_fuseY_accel_ts, if_neg (not_lt.mpr h)]
  · intro c u t s
    rw [sensors_fuseX_accel_ts]
    split <;> omega
  · intro c u t s h
    rw [sensors_fuseX_accel_ts, if_neg (not_lt.mpr h)]
  · intro c u1 u2 u3 u4 s0 h0
    have h1 : (sensors_fuseZ c .acceleration u1 1000 s0).state.lastTimestamp = 1000 := by
      rw [sensors_fuseZ_accel_ts, h0, if_neg (by decide)]
    have h2 : (sensors_fuseZ c .acceleration u2 3000
        (sensors_fuseZ c .acceleration u1 1000 s0).state).state.lastTimestamp = 3000 := by
      rw [sensors_fuseZ_accel_ts, h1, if_neg (by decide)]
    have h3 : (sensors_fuseZ c .acceleration u3 2000
        (sensors_fuseZ c .acceleration u2 3000
          (sensors_fuseZ c .acceleration u1 1000 s0).state).state).state.lastTimestamp
        = 3000 := by
      rw [sensors_fuseZ_accel_ts, h2, if_pos (by decide)]
    have h4 : (sensors_fuseZ c .acceleration u4 4000
        (sensors_fuseZ c .acceleration u3 2000
          (sensors_fuseZ c .acceleration u2 3000
            (sensors_fuseZ c .acceleration u1 1000 s0).state).state).state).state.lastTimestamp
        = 4000 := by
      rw [sensors_fuseZ_accel_ts, h3, if_neg (by decide)]
    exact ⟨h1, h2, h3, h4⟩
  · intro c u1 u2 u3 u4 s0 h0
    have h1 : (sensors_fuseX c .acceleration u1 1000 s0).state.lastTimestamp = 1000 := by
      rw [sensors_fuseX_accel_ts, h0, if_neg (by decide)]
    have h2 : (sensors_fuseX c .acceleration u2 3000
        (sensors_fuseX c .acceleration u1 1000 s0).state).state.lastTimestamp = 3000 := by
      rw [sensors_fuseX_accel_ts, h1, if_neg (by decide)]
    have h3 : (sensors_fuseX c .acceleration u3 2000
        (sensors_fuseX c .acceleration u2 3000
          (sensors_fuseX c .acceleration u1 1000 s0).state).state).state.lastTimestamp
        = 3000 := by
      rw [sensors_fuseX_accel_ts, h2, if_pos (by decide)]
    have h4 : (sensors_fuseX c .acceleration u4 4000
        (sensors_fuseX c .acceleration u3 2000
          (sensors_fuseX c .acceleration u2 3000
            (sensors_fuseX c .acceleration u1 1000 s0).state).state).state).state.lastTimestamp
        = 4000 := by
      rw [sensors_fuseX_accel_ts, h3, if_neg (by decide)]
    exact ⟨h1, h2, h3, h4⟩

/-- Witness for C7: the drop, accept and trajectory statements applied
at concrete constants, states and timestamps. -/
theorem C7_ekf_monotone_time_witness :
    sensors_fuseZ ⟨1, 1, 1, 1, 10⟩ .acceleration 1 3
        ⟨⟨0, 0⟩, ⟨0, 0, 0, 1⟩, ⟨0, 0, 0⟩, 5⟩
      = ⟨⟨⟨0, 0⟩, ⟨0, 0, 0, 1⟩, ⟨0, 0, 0⟩, 5⟩, false, false, true, Mat3.zero⟩ ∧
    (sensors_fuseZ ⟨1, 1, 1, 1, 10⟩ .acceleration 1 7
        ⟨⟨0, 0⟩, ⟨0, 0, 0, 1⟩, ⟨0, 0, 0⟩, 5⟩).state.lastTimestamp = 7 ∧
    sensors_fuseY ⟨1, 1, 1, 10⟩ .acceleration 1 3 ⟨⟨0, 0⟩, ⟨0, 0, 0, 1⟩, 0, 0, 5⟩
      = ⟨⟨⟨0, 0⟩, ⟨0, 0, 0, 1⟩, 0, 0, 5⟩, false, false, true, Mat2.zero⟩ ∧
    (sensors_fuseY ⟨1, 1, 1, 10⟩ .acceleration 1 7
        ⟨⟨0, 0⟩, ⟨0, 0, 0, 1⟩, 0, 0, 5⟩).state.lastTimestamp = 7 ∧
    sensors_fuseX ⟨1, 1, 10⟩ .acceleration 1 3 ⟨⟨0, 0⟩, ⟨0, 0, 0, 1⟩, 0, 5⟩
      = ⟨⟨⟨0, 0⟩, ⟨0, 0, 0, 1⟩, 0, 5⟩, false, false, true, 0⟩ ∧
    (sensors_fuseX ⟨1, 1, 10⟩ .acceleration 1 7
        ⟨⟨0, 0⟩, ⟨0, 0, 0, 1⟩, 0, 5⟩).state.lastTimestamp = 7 ∧
    (sensors_fuseZ ⟨1, 1, 1, 1, 10⟩ .acceleration 1 1000
        ⟨⟨0, 0⟩, ⟨0, 0, 0, 1⟩, ⟨0, 0, 0⟩, 0⟩).state.lastTimestamp = 1000 ∧
    (sensors_fuseX ⟨1, 1, 10⟩ .acceleration 1 1000
        ⟨⟨0, 0⟩, ⟨0, 0, 0, 1⟩, 0, 0⟩).state.lastTimestamp = 1000 :=
  ⟨C7_ekf_monotone_time.1 _ _ _ _ (by decide),
   C7_ekf_monotone_time.2.2.1 _ _ _ _ (by decide),
   C7_ekf_monotone_time.2.2.2.1 _ _ _ _ (by decide),
   C7_ekf_monotone_time.2.2.2.2.2.1 _ _ _ _ (by decide),
   C7_ekf_monotone_time.2.2.2.2.2.2.1 _ _ _ _ (by decide),
   C7_ekf_monotone_time.2.2.2.2.2.2.2.2.1 _ _ _ _ (by decide),
   (C7_ekf_monotone_time.2.2.2.2.2.2.2.2.2.1 _ 1 1 1 1 _ rfl).1,
   (C7_ekf_monotone_time.2.2.2.2.2.2.2.2.2.2 _ 1 1 1 1 _ rfl).1⟩

/-- C10: for every axis fuser an ACCELERATION event whose timestamp
equals the current `lastTimestamp` is accepted (only strictly smaller
timestamps are dropped); Δt is 0, so the transition Jacobian is the
identity, `G·u` vanishes (the transition returns the prior state
unchanged, given the prior velocity obeys the clamp), the process noise
`Q` is the zero matrix, and the predicted position and velocity equal
the prior state. -/
theorem C10_equal_timestamp_prediction_identity :
    (∀ (c : ZConsts) (s : ZState) (u : ℚ), |s.x.vel| ≤ c.limitVel →
      sensors_fuseZ c .acceleration u s.lastTimestamp s
        = ⟨s, true, false, false, Mat3.zero⟩ ∧
      sensors_fuseZ_transition c 0 s.x u = (⟨1, 0, 0, 1⟩, s.x) ∧
      sensors_fuse_Q c.errorAcceleration u 0 = Mat2.zero) ∧
    (∀ (c : YConsts) (s : YState) (u : ℚ), |s.x.vel| ≤ c.limitVel →
      sensors_fuseY c .acceleration u s.lastTimestamp s
        = ⟨s, true, false, false, Mat2.zero⟩ ∧
      sensors_fuseY_transition c 0 s.x u = (⟨1, 0, 0, 1⟩, s.x) ∧
      sensors_fuse_Q c.errorAcceleration u 0 = Mat2.zero) ∧
    (∀ (c : XConsts) (s : XState) (u : ℚ), |s.x.vel| ≤ c.limitVel →
      sensors_fuseX c .acceleration u s.lastTimestamp s
        = ⟨s, true, false, false, 0⟩ ∧
      sensors_fuseX_transition c 0 s.x u = (⟨1, 0, 0, 1⟩, s.x) ∧
      sensors_fuse_Q c.errorAcceleration u 0 = Mat2.zero) := by
  refine ⟨fun c s u h => ⟨?_, ?_, ?_⟩, fun c s u h => ⟨?_, ?_, ?_⟩,
          fun c s u h => ⟨?_, ?_, ?_⟩⟩
  · exact sensors_fuseZ_accel_equal_ts c s u h
  · exact sensors_fuseZ_transition_dt0 c s.x u h
  · exact sensors_fuse_Q_dt0 _ _
  · exact sensors_fuseY_accel_equal_ts c s u h
  · exact sensors_fuseY_transition_dt0 c s.x u h
  · exact sensors_fuse_Q_dt0 _ _
  · exact sensors_fuseX_accel_equal_ts c s u h
  · exact sensors_fuseX_transition_dt0 c s.x u h
  · exact sensors_fuse_Q_dt0 _ _

/-- Witness for C10: the identity prediction at a concrete state whose
velocity obeys each axis limit. -/
theorem C10_equal_timestamp_prediction_identity_witness :
    (sensors_fuseZ ⟨1, 1, 1, 1, 10⟩ .acceleration 5 42
        ⟨⟨2, 3⟩, ⟨0, 0, 0, 1⟩, ⟨0, 0, 0⟩, 42⟩
      = ⟨⟨⟨2, 3⟩, ⟨0, 0, 0, 1⟩, ⟨0, 0, 0⟩, 42⟩, true, false, false, Mat3.zero⟩ ∧
     sensors_fuseZ_transition ⟨1, 1, 1, 1, 10⟩ 0 ⟨2, 3⟩ 5 = (⟨1, 0, 0, 1⟩, ⟨2, 3⟩) ∧
     sensors_fuse_Q 1 5 0 = Mat2.zero) ∧
    (sensors_fuseY ⟨1, 1, 1, 10⟩ .acceleration 5 42 ⟨⟨2, 3⟩, ⟨0, 0, 0, 1⟩, 0, 0, 42⟩
      = ⟨⟨⟨2, 3⟩, ⟨0, 0, 0, 1⟩, 0, 0, 42⟩, true, false, false, Mat2.zero⟩ ∧
     sensors_fuseY_transition ⟨1, 1, 1, 10⟩ 0 ⟨2, 3⟩ 5 = (⟨1, 0, 0, 1⟩, ⟨2, 3⟩) ∧
     sensors_fuse_Q 1 5 0 = Mat2.zero) ∧
    (sensors_fuseX ⟨1, 1, 10⟩ .acceleration 5 42 ⟨⟨2, 3⟩, ⟨0, 0, 0, 1⟩, 0, 42⟩
      = ⟨⟨⟨2, 3⟩, ⟨0, 0, 0, 1⟩, 0, 42⟩, true, false, false, 0⟩ ∧
     sensors_fuseX_transition ⟨1, 1, 10⟩ 0 ⟨2, 3⟩ 5 = (⟨1, 0, 0, 1⟩, ⟨2, 3⟩) ∧
     sensors_fuse_Q 1 5 0 = Mat2.zero) :=
  ⟨C10_equal_timestamp_prediction_identity.1 _ _ 5 (by norm_num),
   C10_equal_timestamp_prediction_identity.2.1 _ _ 5 (by norm_num),
   C10_equal_timestamp_prediction_identity.2.2 _ _ 5 (by norm_num)⟩

/-- C1: contrary to the claim, the `switch` in `sensors_task` routes no
event to any axis fuser — every `sensors_fuseX`, `sensors_fuseY` and
`sensors_fuseZ` call is commented out — so no dequeued event, the
failing ACCELERATION input included, updates any axis filter state. -/
theorem C1_sensors_task_routes_to_no_fuser :
    (∀ (timeoutMs : ℤ) (input : SensorsInput) (s : SensorsState) (spaces : ℕ),
      (sensors_task_step timeoutMs input s spaces).1.Z = s.Z ∧
      (sensors_task_step timeoutMs input s spaces).1.Y = s.Y ∧
      (sensors_task_step timeoutMs input s spaces).1.X = s.X ∧
      (sensors_task_step timeoutMs input s spaces).2.1 = []) ∧
    sensors_task_fuserCalls SensorType.acceleration = [] := by
  refine ⟨fun timeoutMs input s spaces => ⟨rfl, rfl, rfl, ?_⟩, rfl⟩
  show sensors_task_fuserCalls input.type = []
  cases input.type <;> rfl

/-- C2: the correction switches drop measurements instead of fusing
them.  A POSITION measurement on the Y fuser writes rows 0 and 1 of `z`
(missing `break` fallthrough) and returns without invoking
`eekf_lazy_correct`; GROUNDSPEED on Y, POSITION on X and POSITION on Z
likewise return without the correction call.  Only ULTRASONIC and
ALTIMETER on the Z fuser behave as the claim states: one row of `z`
written, one diagonal entry of `R` set, `eekf_lazy_correct` invoked. -/
theorem C2_correction_rows_and_lazy_correct :
    ∀ (cz : ZConsts) (cy : YConsts) (cx : XConsts) (v : ℚ) (ts : ℤ)
      (sz : ZState) (sy : YState) (sx : XState),
      ((sensors_fuseY cy .position v ts sy).state.z0 = v ∧
       (sensors_fuseY cy .position v ts sy).state.z1 = v ∧
       (sensors_fuseY cy .position v ts sy).didCorrect = false ∧
       (sensors_fuseY cy .position v ts sy).state.x = sy.x ∧
       (sensors_fuseY cy .position v ts sy).state.P = sy.P) ∧
      ((sensors_fuseY cy .groundspeed v ts sy).state.z1 = v ∧
       (sensors_fuseY cy .groundspeed v ts sy).didCorrect = false) ∧
      ((sensors_fuseX cx .position v ts sx).state.z0 = v ∧
       (sensors_fuseX cx .position v ts sx).didCorrect = false ∧
       (sensors_fuseX cx .position v ts sx).state.x = sx.x) ∧
      ((sensors_fuseZ cz .position v ts sz).state.z.v2 = v ∧
       (sensors_fuseZ cz .position v ts sz).didCorrect = false ∧
       (sensors_fuseZ cz .position v ts sz).state.x = sz.x) ∧
      ((sensors_fuseZ cz .ultrasonic v ts sz).state.z.v0 = v ∧
       (sensors_fuseZ cz .ultrasonic v ts sz).state.z.v1 = sz.z.v1 ∧
       (sensors_fuseZ cz .ultrasonic v ts sz).state.z.v2 = sz.z.v2 ∧
       (sensors_fuseZ cz .ultrasonic v ts sz).didCorrect = true ∧
       (sensors_fuseZ cz .ultrasonic v ts sz).R
         = ⟨cz.errorUltrasonic, 0, 0, 0, 0, 0, 0, 0, 0⟩) ∧
      ((sensors_fuseZ cz .altimeter v ts sz).state.z.v1 = v ∧
       (sensors_fuseZ cz .altimeter v ts sz).didCorrect = true ∧
       (sensors_fuseZ cz .altimeter v ts sz).R
         = ⟨0, 0, 0, 0, cz.errorBarometer, 0, 0, 0, 0⟩) := by
  intro cz cy cx v ts sz sy sx
  refine ⟨⟨rfl, rfl, rfl, rfl, rfl⟩, ⟨rfl, rfl⟩, ⟨rfl, rfl, rfl⟩,
          ⟨rfl, rfl, rfl⟩, ⟨rfl, rfl, rfl, rfl, rfl⟩, ⟨rfl, rfl, rfl⟩⟩

/-- C3: on a wake with a connection and an expired heartbeat window the
source broadcasts the ping and arms the flag as the claim states, but
when the flag is already armed it only prints "remote timeout" to the
console under a ToDo marker and clears the flag — no emergency-stop
signal is raised to the flight controller. -/
theorem C3_pending_timeout_prints_instead_of_emergency_stop :
    remote_task_heartbeat ⟨1, false, 0⟩ 600000
      = (⟨1, true, 600000⟩, [RemoteAction.broadcast [115, 63]]) ∧
    remote_task_heartbeat ⟨1, true, 0⟩ 600000
      = (⟨1, false, 0⟩, [RemoteAction.printConsole "remote timeout"]) ∧
    RemoteAction.emergencyStop ∉ (remote_task_heartbeat ⟨1, true, 0⟩ 600000).2 := by
  refine ⟨?_, ?_, ?_⟩ <;> decide

/-- C4: frames shorter than two bytes are ignored as the claim states,
but a well-formed control frame (first byte `c` = 99) produces no
action either — the forwarding to the flight-control task is an
unimplemented ToDo in the source, so no `forwardControl` effect is ever
emitted. -/
theorem C4_control_frame_not_forwarded :
    remote_processMessage ⟨[99, 120], 2, none, 0⟩ = [] ∧
    remote_processMessage ⟨[99], 1, none, 0⟩ = [] ∧
    (∀ m : RemoteMessage, m.length < 2 → remote_processMessage m = []) ∧
    (∀ m : RemoteMessage, ∀ cmd : List ℕ,
      RemoteAction.forwardControl cmd ∉ remote_processMessage m) := by
  refine ⟨rfl, rfl, fun m h => by simp [remote_processMessage, h], ?_⟩
  intro m cmd
  unfold remote_processMessage
  split
  · simp
  · split <;> simp

/-- C5: the previously-captured sink always receives the exact format
string and arguments, and on a formatting overflow the buffer is freed
with nothing enqueued — but when the queue is full the source ignores
the `xQueueSend` result, so the buffer is never released (zero releases
over its lifetime), contradicting the claimed release. -/
theorem C5_printLog_queue_full_leaks_buffer :
    ∀ (α : Type) (fmtArgs : α),
      ((remote_printLog fmtArgs 2 false).bufferReleases = 0 ∧
       (remote_printLog fmtArgs 2 false).enqueuedBroadcast = false ∧
       (remote_printLog fmtArgs 2 false).sinkArgs = fmtArgs) ∧
      ((remote_printLog fmtArgs 200 true).bufferReleases = 1 ∧
       (remote_printLog fmtArgs 200 true).enqueuedBroadcast = false ∧
       (remote_printLog fmtArgs 200 true).sinkArgs = fmtArgs) ∧
      ((remote_printLog fmtArgs 2 true).bufferReleases = 1 ∧
       (remote_printLog fmtArgs 2 true).enqueuedBroadcast = true ∧
       (remote_printLog fmtArgs 2 true).sinkArgs = fmtArgs) ∧
      (∀ (n : ℤ) (q : Bool), (remote_printLog fmtArgs n q).sinkArgs = fmtArgs) := by
  intro α fmtArgs
  refine ⟨?_, ?_, ?_, ?_⟩
  · refine ⟨?_, ?_, ?_⟩ <;> norm_num [remote_printLog]
  · refine ⟨?_, ?_, ?_⟩ <;> norm_num [remote_printLog]
  · refine ⟨?_, ?_, ?_⟩ <;> norm_num [remote_printLog]
  · intro n q
    simp only [remote_printLog]
    by_cases hc : (n + 1 ≤ 0 ∨ n + 1 > 128)
    · rw [if_pos hc]
    · rw [if_neg hc]
      cases q <;> rfl

/-- Single streamer call when the remaining bytes fit in one chunk. -/
theorem remote_sendEmbedded_done (asset : List ℕ) (sent : ℕ)
    (h1 : ¬ asset.length - 1 = 0) (h2 : asset.length - 1 - sent ≤ 1024) :
    remote_sendEmbedded asset sent
      = (.done, (asset.dropLast.drop sent).take (asset.length - 1 - sent),
         sent + (asset.length - 1 - sent)) := by
  simp [remote_sendEmbedded, h1, h2]

/-- Single streamer call when more than one chunk remains. -/
theorem remote_sendEmbedded_more (asset : List ℕ) (sent : ℕ)
    (h1 : ¬ asset.length - 1 = 0) (h2 : ¬ asset.length - 1 - sent ≤ 1024) :
    remote_sendEmbedded asset sent
      = (.more, (asset.dropLast.drop sent).take 1024, sent + 1024) := by
  simp [remote_sendEmbedded, h1, h2]

/-- Re-entering the streamer from byte offset `sent` with enough fuel
emits exactly the remaining content bytes and finishes with DONE. -/
theorem remote_sendEmbedded_run_drop (asset : List ℕ) (h2 : 2 ≤ asset.length) :
    ∀ (fuel sent : ℕ), sent ≤ asset.length - 1 → asset.length - 1 - sent < fuel →
      remote_sendEmbedded_run asset sent fuel
        = (asset.dropLast.drop sent, some CgiStatus.done) := by
  intro fuel
  induction fuel with
  | zero => intro sent _ hf; omega
  | succ fuel ih =>
    intro sent hs hf
    have h1 : ¬ (asset.length - 1 = 0) := by omega
    by_cases hrem : asset.length - 1 - sent ≤ 1024
    · have hcall := remote_sendEmbedded_done asset sent h1 hrem
      have hlen : (asset.dropLast.drop sent).length = asset.length - 1 - sent := by
        rw [List.length_drop, List.length_dropLast]
      simp only [remote_sendEmbedded_run, hcall]
      rw [List.take_of_length_le (le_of_eq hlen)]
    · have hcall := remote_sendEmbedded_more asset sent h1 hrem
      simp only [remote_sendEmbedded_run, hcall]
      rw [ih (sent + 1024) (by omega) (by omega)]
      have hdd : (asset.dropLast.drop sent).drop 1024
          = asset.dropLast.drop (sent + 1024) := by
        rw [List.drop_drop, Nat.add_comm]
      rw [← hdd, List.take_append_drop]

/-- C6: for an embedded asset whose validated byte range is non-empty,
the concatenation of the chunks emitted across repeated
`remote_sendEmbedded` calls equals the asset byte-for-byte excluding
the trailing null terminator, the final call returns DONE, every call
emits at most 1024 bytes, and a call returns MORE exactly when more
than 1024 bytes remain (DONE exactly when the call exhausts the
asset). -/
theorem C6_asset_chunking (asset : List ℕ) (h2 : 2 ≤ asset.length) :
    (remote_sendEmbedded_run asset 0 asset.length).1 = asset.dropLast ∧
    (remote_sendEmbedded_run asset 0 asset.length).2 = some CgiStatus.done ∧
    (∀ sent : ℕ, ((remote_sendEmbedded asset sent).2.1).length ≤ 1024) ∧
    (∀ sent : ℕ,
      ((remote_sendEmbedded asset sent).1 = CgiStatus.more ↔
        1024 < asset.length - 1 - sent) ∧
      ((remote_sendEmbedded asset sent).1 = CgiStatus.done ↔
        asset.length - 1 - sent ≤ 1024)) := by
  have hrun := remote_sendEmbedded_run_drop asset h2 asset.length 0
    (by omega) (by omega)
  refine ⟨by rw [hrun]; simp, by rw [hrun], fun sent => ?_, fun sent => ?_⟩
  · by_cases h1 : asset.length - 1 = 0
    · simp [remote_sendEmbedded, h1]
    · by_cases hrem : asset.length - 1 - sent ≤ 1024
      · rw [remote_sendEmbedded_done asset sent h1 hrem]
        exact le_trans (List.length_take_le _ _) hrem
      · rw [remote_sendEmbedded_more asset sent h1 hrem]
        exact List.length_take_le _ _
  · have h1 : ¬ (asset.length - 1 = 0) := by omega
    by_cases hrem : asset.length - 1 - sent ≤ 1024
    · rw [remote_sendEmbedded_done asset sent h1 hrem]
      refine ⟨⟨fun hc => by simp at hc, fun hc => absurd hc (by omega)⟩,
              ⟨fun _ => hrem, fun _ => rfl⟩⟩
    · rw [remote_sendEmbedded_more asset sent h1 hrem]
      refine ⟨⟨fun _ => by omega, fun _ => rfl⟩,
              ⟨fun hc => by simp at hc, fun hc => absurd hc (by omega)⟩⟩

/-- Witness for C6 on the concrete three-byte asset 104, 105, 0. -/
theorem C6_asset_chunking_witness :
    (remote_sendEmbedded_run [104, 105, 0] 0 3).1 = [104, 105, 0].dropLast ∧
    (remote_sendEmbedded_run [104, 105, 0] 0 3).2 = some CgiStatus.done :=
  ⟨(C6_asset_chunking [104, 105, 0] (by norm_num)).1,
   (C6_asset_chunking [104, 105, 0] (by norm_num)).2.1⟩

/-- C8: a DISCONNECTED event decrements the 8-bit connection counter
with `uint8_t` wrap-around and no lower-bound guard, so from counter 0
it wraps to 255, after which both the heartbeat check and the send path
treat the system as having active connections. -/
theorem C8_disconnected_wraps_counter :
    (∀ s : RemoteState, (remote_task_handleEvent .disconnected s).1.connected
        = (s.connected + 255) % 256) ∧
    (∀ s : RemoteState, s.connected = 0 →
      (remote_task_handleEvent .disconnected s).1.connected = 255) ∧
    (∀ (s : RemoteState) (now : ℤ), s.connected = 255 →
      now - s.lastContact > 500000 → (remote_task_heartbeat s now).2 ≠ []) ∧
    (∀ (s : RemoteState) (m : RemoteMessage), s.connected = 255 →
      remote_sendMessage s m ≠ []) := by
  refine ⟨fun s => rfl, fun s h => by simp [remote_task_handleEvent, h], ?_, ?_⟩
  · intro s now h hnow
    unfold remote_task_heartbeat
    rw [if_pos ⟨by omega, hnow⟩]
    split <;> simp
  · intro s m h
    obtain ⟨d, l, ws, t⟩ := m
    unfold remote_sendMessage
    rw [if_pos (by omega)]
    cases ws <;> simp

/-- Witness for C8: processing DISCONNECTED at counter 0 and the
resulting live heartbeat and send path, at concrete states. -/
theorem C8_disconnected_wraps_counter_witness :
    (remote_task_handleEvent .disconnected ⟨0, false, 0⟩).1.connected = 255 ∧
    (remote_task_heartbeat ⟨255, false, 0⟩ 600000).2 ≠ [] ∧
    remote_sendMessage ⟨255, false, 0⟩ ⟨[114, 97], 2, none, 0⟩ ≠ [] :=
  ⟨C8_disconnected_wraps_counter.2.1 ⟨0, false, 0⟩ rfl,
   C8_disconnected_wraps_counter.2.2.1 ⟨255, false, 0⟩ 600000 rfl (by decide),
   C8_disconnected_wraps_counter.2.2.2 ⟨255, false, 0⟩ ⟨[114, 97], 2, none, 0⟩ rfl⟩

/-- C9: `remote_wsReceive` copies all `len` bytes of the inbound frame
into the event buffer but stores the length into the 8-bit field, so
for `len ≥ 256` the recorded length is `len mod 256` (strictly smaller
than `len`), and the task's dequeue path hands the parser exactly the
message carrying the truncated length before freeing the buffer. -/
theorem C9_wsReceive_length_truncation :
    ∀ (ws : ℕ) (data : List ℕ) (now : ℤ), 256 ≤ data.length →
      remote_wsReceive ws data now
        = RemoteInput.messageReceive ⟨data, data.length % 256, some ws, now⟩ ∧
      data.length % 256 < data.length ∧
      remote_task_handleEvent (remote_wsReceive ws data now) ⟨1, true, 5⟩
        = (⟨1, false, now⟩,
           remote_processMessage ⟨data, data.length % 256, some ws, now⟩
             ++ [RemoteAction.freeBuffer]) := by
  intro ws data now h
  refine ⟨rfl, ?_, rfl⟩
  have hm : data.length % 256 < 256 := Nat.mod_lt _ (by norm_num)
  omega

/-- Witness for C9 on a concrete 256-byte control frame. -/
theorem C9_wsReceive_length_truncation_witness :
    remote_wsReceive 7 (99 :: List.replicate 255 120) 5
      = RemoteInput.messageReceive
          ⟨99 :: List.replicate 255 120,
           (99 :: List.replicate 255 120).length % 256, some 7, 5⟩ ∧
    (99 :: List.replicate 255 120).length % 256
      < (99 :: List.replicate 255 120).length ∧
    remote_task_handleEvent (remote_wsReceive 7 (99 :: List.replicate 255 120) 5)
        ⟨1, true, 5⟩
      = (⟨1, false, 5⟩,
         remote_processMessage
           ⟨99 :: List.replicate 255 120,
            (99 :: List.replicate 255 120).length % 256, some 7, 5⟩
           ++ [RemoteAction.freeBuffer]) :=
  C9_wsReceive_length_truncation 7 (99 :: List.replicate 255 120) 5
    (by simp only [List.length_cons, List.length_replicate]; norm_num)

/-- Witness for C4: the short-frame clause applied at a concrete
one-byte frame, and the absence of forwarding at a concrete control
frame. -/
theorem C4_control_frame_not_forwarded_witness :
    remote_processMessage ⟨[99], 1, none, 3⟩ = [] ∧
    RemoteAction.forwardControl [120] ∉ remote_processMessage ⟨[99, 120], 2, none, 0⟩ :=
  ⟨C4_control_frame_not_forwarded.2.2.1 ⟨[99], 1, none, 3⟩ (by norm_num),
   C4_control_frame_not_forwarded.2.2.2 ⟨[99, 120], 2, none, 0⟩ [120]⟩
